import Mathlib

/-!
Shallow embedding of the mcp-servers-kagi repository (src/index.ts, src/api.ts,
src/types.ts): a Kagi HTTP API client (`KagiAPI`) plus an MCP tool adapter that
exposes the client's search operation as the tool "kagi_search".

JavaScript runtime values that flow through the untyped boundaries (tool
arguments, backend payloads) are modelled by the inductive `JSVal`; JS numbers
are modelled as integers. The HTTP transport is a parameter
`http : AxiosRequest → Except AxiosError HttpResponse`; thrown exceptions are
modelled by the `Exn` sum and `Except`.
-/

namespace Kagi

/-- A JavaScript runtime value (numbers modelled as integers). -/
inductive JSVal where
  | undefined
  | null
  | bool (b : Bool)
  | num (n : Int)
  | str (s : String)
  | obj (fields : List (String × JSVal))

/-- JS truthiness of a value (`undefined`, `null`, `false`, `0` and `""` are falsy). -/
def JSVal.truthy : JSVal → Bool
  | .undefined => false
  | .null => false
  | .bool b => b
  | .num n => n != 0
  | .str s => s != ""
  | .obj _ => true

/-- The result of the JS `typeof` operator (`typeof null` is `"object"`). -/
def JSVal.typeof : JSVal → String
  | .undefined => "undefined"
  | .null => "object"
  | .bool _ => "boolean"
  | .num _ => "number"
  | .str _ => "string"
  | .obj _ => "object"

/-- First binding of a key in a JS object field list; `undefined` when missing. -/
def lookupField : List (String × JSVal) → String → JSVal
  | [], _ => .undefined
  | (k, v) :: rest, key => if k = key then v else lookupField rest key

/-- JS property access `v.key` with optional chaining semantics: property access
on a non-object yields `undefined`. -/
def JSVal.getField : JSVal → String → JSVal
  | .obj fields, key => lookupField fields key
  | _, _ => .undefined

/-- JS string conversion as performed by template literals and `String(...)`. -/
def JSVal.display : JSVal → String
  | .undefined => "undefined"
  | .null => "null"
  | .bool b => if b then "true" else "false"
  | .num n => toString n
  | .str s => s
  | .obj _ => "[object Object]"

/-- JS `a || b` on values. -/
def jsOr (a b : JSVal) : JSVal := if a.truthy then a else b

/-- JS `a || d` where `a` is an optional number field (`0` is falsy, so it is
replaced by the default). -/
def jsOrNum (a : Option Int) (d : Int) : Int :=
  match a with
  | none => d
  | some n => if n = 0 then d else n

/-- JS `a || d` where `a` is an optional string field (`""` is falsy). -/
def jsOrStr (a : Option String) (d : String) : String :=
  match a with
  | none => d
  | some s => if s = "" then d else s

/-- Truthiness of an optional string field (absent and `""` are falsy). -/
def strTruthy : Option String → Bool
  | none => false
  | some s => s != ""

/-- JS `String(b)` for a boolean. -/
def boolToString (b : Bool) : String := if b then "true" else "false"

/-- An optional string field as a JS value. -/
def optStrVal : Option String → JSVal
  | none => .undefined
  | some s => .str s

/-! HTTP transport model (axios). -/

/-- A successful axios HTTP response: status and parsed JSON body. -/
structure HttpResponse where
  status : Int
  data : JSVal

/-- An axios transport error: the raw failure message, and the backend HTTP
response when one was received (absent for pure connection/timeout failures). -/
structure AxiosError where
  message : String
  response : Option HttpResponse

/-- An outbound HTTP request relative to the client's connection context:
method, path, query parameters and JSON body (`.undefined` when no body). -/
structure AxiosRequest where
  method : String
  path : String
  params : List (String × JSVal)
  body : JSVal

/-- True when axios omits a query parameter with this value from the request
(axios skips `undefined` and `null` params). -/
def omittedParam : JSVal → Bool
  | .undefined => true
  | .null => true
  | .bool _ => false
  | .num _ => false
  | .str _ => false
  | .obj _ => false

/-- Axios query-string serialization of a params object: entries whose value is
`undefined` or `null` are omitted; the rest are stringified. -/
def serializeParams : List (String × JSVal) → List (String × String)
  | [] => []
  | (k, v) :: rest =>
    if omittedParam v then serializeParams rest
    else (k, v.display) :: serializeParams rest

/-- True when JSON.stringify drops an object field with this value (only
`undefined` fields are dropped; `null` is kept). -/
def omittedJsonField : JSVal → Bool
  | .undefined => true
  | .null => false
  | .bool _ => false
  | .num _ => false
  | .str _ => false
  | .obj _ => false

/-- JSON body serialization of an object's fields: entries whose value is
`undefined` are dropped by JSON.stringify; the rest are kept as values. -/
def jsonBodyFields : List (String × JSVal) → List (String × JSVal)
  | [] => []
  | (k, v) :: rest =>
    if omittedJsonField v then jsonBodyFields rest
    else (k, v) :: jsonBodyFields rest

/-- The JSON fields actually transmitted in a request's body. -/
def AxiosRequest.transmittedBody (req : AxiosRequest) : List (String × JSVal) :=
  match req.body with
  | .obj fields => jsonBodyFields fields
  | _ => []

/-! Error shapes (src/types.ts) and the exception model. -/

/-- KagiError from src/types.ts: the normalized error shape carrying a message,
an optional HTTP status code and the raw backend payload as details
(`.undefined` when none was received). -/
structure KagiError where
  message : JSVal
  code : Option Int
  details : JSVal

/-- MCP protocol fault codes used by the tool adapter. -/
inductive McpErrorCode where
  | invalidParams
  | methodNotFound

/-- A thrown JS exception: a KagiError, a plain `Error` with only a message, an
McpError protocol fault, or any other thrown value. -/
inductive Exn where
  | kagi (e : KagiError)
  | plain (message : String)
  | mcp (code : McpErrorCode) (message : String)
  | other (payload : JSVal)

/-! The KagiAPI client (src/api.ts). -/

/-- KagiConfig from src/types.ts; `apiKey` is `none` when the field is absent. -/
structure KagiConfig where
  apiKey : Option String
  baseURL : Option String
  timeout : Option Int

/-- The connection context established by the constructor: base URL, timeout
and fixed headers, shared by every request of the client. -/
structure ClientContext where
  baseURL : String
  timeout : Int
  headers : List (String × String)

def KagiAPI.DEFAULT_BASE_URL : String := "https://kagi.com/api/v0"

def KagiAPI.DEFAULT_TIMEOUT : Int := 30000

/-- The KagiAPI constructor: rejects an absent or empty API key, otherwise
builds the axios connection context with defaults applied to the optional
fields and the two fixed headers. -/
def KagiAPI.create (config : KagiConfig) : Except Exn ClientContext :=
  match config.apiKey with
  | none => .error (.plain "API key is required")
  | some key =>
    if key = "" then .error (.plain "API key is required")
    else .ok
      { baseURL := jsOrStr config.baseURL KagiAPI.DEFAULT_BASE_URL
        timeout := jsOrNum config.timeout KagiAPI.DEFAULT_TIMEOUT
        headers := [("Authorization", "Bot " ++ key),
                    ("Content-Type", "application/json")] }

/-- The response interceptor registered at construction: rewrites an axios
error into a KagiError built from `error.response?.data?.message || error.message`,
`error.response?.status` and `error.response?.data`. -/
def KagiAPI.normalizeError (e : AxiosError) : KagiError :=
  { message := jsOr ((e.response.map (fun r => r.data.getField "message")).getD .undefined)
      (.str e.message)
    code := e.response.map (fun r => r.status)
    details := (e.response.map (fun r => r.data)).getD .undefined }

/-- One HTTP call through the shared client: a successful response yields its
body, and every transport failure is rewritten by the interceptor into a
KagiError — the single centralized normalization point. -/
def KagiAPI.runRequest (http : AxiosRequest → Except AxiosError HttpResponse)
    (req : AxiosRequest) : Except Exn JSVal :=
  match http req with
  | .ok r => .ok r.data
  | .error e => .error (.kagi (KagiAPI.normalizeError e))

/-- SearchParams from src/types.ts. -/
structure SearchParams where
  q : String
  limit : Option Int

/-- The request issued by `search`: GET /search with `q` and
`limit: params.limit || 10`. -/
def KagiAPI.searchRequest (p : SearchParams) : AxiosRequest :=
  { method := "GET", path := "/search"
    params := [("q", .str p.q), ("limit", .num (jsOrNum p.limit 10))]
    body := .undefined }

/-- KagiAPI.search: shape the params and run the GET through the client. -/
def KagiAPI.search (http : AxiosRequest → Except AxiosError HttpResponse)
    (p : SearchParams) : Except Exn JSVal :=
  KagiAPI.runRequest http (KagiAPI.searchRequest p)

/-- SummarizeParams from src/types.ts. -/
structure SummarizeParams where
  url : Option String
  text : Option String
  engine : Option String
  summary_type : Option String
  target_language : Option String
  cache : Option Bool

/-- The request issued by `summarize`: GET /summarize with the spread params
and `cache` replaced by its stringified form (or `undefined` when absent). -/
def KagiAPI.summarizeRequest (p : SummarizeParams) : AxiosRequest :=
  { method := "GET", path := "/summarize"
    params := [("url", optStrVal p.url),
               ("text", optStrVal p.text),
               ("engine", optStrVal p.engine),
               ("summary_type", optStrVal p.summary_type),
               ("target_language", optStrVal p.target_language),
               ("cache", match p.cache with
                 | none => .undefined
                 | some b => .str (boolToString b))]
    body := .undefined }

/-- KagiAPI.summarize: the url/text exclusivity checks (JS truthiness, so an
empty string counts as absent), then the GET through the client. -/
def KagiAPI.summarize (http : AxiosRequest → Except AxiosError HttpResponse)
    (p : SummarizeParams) : Except Exn JSVal :=
  if !(strTruthy p.url) && !(strTruthy p.text) then
    .error (.plain "Either url or text parameter is required")
  else if strTruthy p.url && strTruthy p.text then
    .error (.plain "Cannot provide both url and text parameters")
  else
    KagiAPI.runRequest http (KagiAPI.summarizeRequest p)

/-- FastGPTParams from src/types.ts. -/
structure FastGPTParams where
  query : String
  cache : Option Bool

/-- The request issued by `fastgpt`: POST /fastgpt with body
`query` and stringified `cache` (or `undefined` when absent). -/
def KagiAPI.fastgptRequest (p : FastGPTParams) : AxiosRequest :=
  { method := "POST", path := "/fastgpt", params := []
    body := .obj [("query", .str p.query),
                  ("cache", match p.cache with
                    | none => .undefined
                    | some b => .str (boolToString b))] }

/-- KagiAPI.fastgpt: run the POST through the client. -/
def KagiAPI.fastgpt (http : AxiosRequest → Except AxiosError HttpResponse)
    (p : FastGPTParams) : Except Exn JSVal :=
  KagiAPI.runRequest http (KagiAPI.fastgptRequest p)

/-- EnrichParams from src/types.ts. -/
structure EnrichParams where
  q : String

/-- The request issued by `enrich`: GET /enrich/news with `q`. -/
def KagiAPI.enrichRequest (p : EnrichParams) : AxiosRequest :=
  { method := "GET", path := "/enrich/news"
    params := [("q", .str p.q)], body := .undefined }

/-- KagiAPI.enrich: run the GET through the client. -/
def KagiAPI.enrich (http : AxiosRequest → Except AxiosError HttpResponse)
    (p : EnrichParams) : Except Exn JSVal :=
  KagiAPI.runRequest http (KagiAPI.enrichRequest p)

/-- KagiAPI.testConnection: try a minimal search with query "test" and limit 1;
true on success, false on any thrown error. -/
def KagiAPI.testConnection (http : AxiosRequest → Except AxiosError HttpResponse) : Bool :=
  match KagiAPI.search http { q := "test", limit := some 1 } with
  | .ok _ => true
  | .error _ => false

/-! The MCP tool adapter (src/index.ts, CallToolRequestSchema handler). The
registered tool is named "kagi_search"; the search operation is a parameter
`search : SearchParams → Except Exn JSVal` (in the server it is
`KagiAPI.search http`). -/

/-- A textual content block of an MCP tool result. -/
structure TextBlock where
  type : String
  text : String

/-- The value returned by the tool handler: either the raw search results
wrapped as `toolResult`, or a soft error envelope with content and an error
flag. -/
inductive ToolResponse where
  | success (toolResult : JSVal)
  | errorContent (content : List TextBlock) (isError : Bool)

/-- The argument-validation phase of the CallToolRequestSchema handler: checks
the tool name, that the arguments are a truthy object, that `query` is a
string, and that `limit` (when not undefined) is a number in [1, 100]; yields
the SearchParams passed to the client. Each rejection throws an McpError. -/
def parseToolCall (name : String) (arguments : JSVal) : Except Exn SearchParams :=
  if name = "kagi_search" then
    if !arguments.truthy || arguments.typeof != "object" then
      .error (.mcp .invalidParams "Invalid arguments for kagi_search")
    else
      match arguments.getField "query" with
      | .str s =>
        match arguments.getField "limit" with
        | .undefined => .ok { q := s, limit := none }
        | .num n =>
          if n < 1 || n > 100 then
            .error (.mcp .invalidParams "Limit must be a number between 1 and 100")
          else
            .ok { q := s, limit := some n }
        | _ => .error (.mcp .invalidParams "Limit must be a number between 1 and 100")
      | _ => .error (.mcp .invalidParams "Query must be a string")
  else
    .error (.mcp .methodNotFound "Unknown tool")

/-- The try/catch around the search call: success wraps the results; a
KagiError is downgraded to a soft error envelope with a single text block; any
other exception is rethrown. -/
def runToolSearch (search : SearchParams → Except Exn JSVal)
    (p : SearchParams) : Except Exn ToolResponse :=
  match search p with
  | .ok results => .ok (.success results)
  | .error (.kagi e) =>
    .ok (.errorContent [{ type := "text", text := "Kagi API error: " ++ e.message.display }] true)
  | .error e => .error e

/-- The complete CallToolRequestSchema handler. -/
def callToolHandler (name : String) (arguments : JSVal)
    (search : SearchParams → Except Exn JSVal) : Except Exn ToolResponse :=
  match parseToolCall name arguments with
  | .error e => .error e
  | .ok p => runToolSearch search p

/-! Theorems. -/

/-- Claim C6: constructing the client fails (before any network activity) when
the credential is absent or empty, for any values of the other fields; on
success the context carries the Authorization header "Bot " plus the
credential, the JSON content-type header, the given base URL or the default
https://kagi.com/api/v0, and the given timeout or the default 30000. -/
theorem C6_client_construction (config : KagiConfig) :
    ((config.apiKey = none ∨ config.apiKey = some "") →
      KagiAPI.create config = .error (.plain "API key is required")) ∧
    (∀ key, config.apiKey = some key → key ≠ "" →
      ∃ ctx, KagiAPI.create config = .ok ctx ∧
        ctx.headers = [("Authorization", "Bot " ++ key),
                       ("Content-Type", "application/json")] ∧
        (config.baseURL = none → ctx.baseURL = "https://kagi.com/api/v0") ∧
        (∀ u, config.baseURL = some u → u ≠ "" → ctx.baseURL = u) ∧
        (config.timeout = none → ctx.timeout = 30000) ∧
        (∀ t, config.timeout = some t → t ≠ 0 → ctx.timeout = t)) := by
  constructor
  · rintro (h | h) <;> simp [KagiAPI.create, h]
  · intro key hk hne
    have hcreate : KagiAPI.create config = .ok
        { baseURL := jsOrStr config.baseURL KagiAPI.DEFAULT_BASE_URL
          timeout := jsOrNum config.timeout KagiAPI.DEFAULT_TIMEOUT
          headers := [("Authorization", "Bot " ++ key),
                      ("Content-Type", "application/json")] } := by
      simp [KagiAPI.create, hk, hne]
    refine ⟨_, hcreate, rfl, ?_, ?_, ?_, ?_⟩
    · intro hb
      simp [jsOrStr, hb, KagiAPI.DEFAULT_BASE_URL]
    · intro u hu hune
      simp [jsOrStr, hu, hune]
    · intro ht
      simp [jsOrNum, ht, KagiAPI.DEFAULT_TIMEOUT]
    · intro t ht htne
      simp [jsOrNum, ht, htne]

/-- Witness for C6 at a concrete configuration. -/
theorem C6_client_construction_witness :
    ((some "k" : Option String) = some "k") ∧ ("k" : String) ≠ "" ∧
    ∃ ctx, KagiAPI.create { apiKey := some "k", baseURL := none, timeout := none } = .ok ctx ∧
      ctx.headers = [("Authorization", "Bot " ++ "k"),
                     ("Content-Type", "application/json")] ∧
      (ctx.baseURL = "https://kagi.com/api/v0") := by
  refine ⟨rfl, by decide, ?_⟩
  obtain ⟨ctx, h1, h2, h3, -⟩ :=
    (C6_client_construction { apiKey := some "k", baseURL := none, timeout := none }).2
      "k" rfl (by decide)
  exact ⟨ctx, h1, h2, h3 rfl⟩

/-- Counterexample to claim C7 as stated: with the supplied limit 0 the issued
request carries limit 10, not the supplied limit. -/
theorem C7_counterexample :
    (KagiAPI.searchRequest { q := "x", limit := some 0 }).params
        = [("q", JSVal.str "x"), ("limit", JSVal.num 10)] ∧
    JSVal.num 10 ≠ JSVal.num 0 := by
  refine ⟨rfl, fun h => ?_⟩
  exact absurd (JSVal.num.inj h) (by decide)

/-- Claim C7 (amended): a search call omitting limit issues a request carrying
limit 10; a search call with limit 5 — and generally any supplied nonzero
limit — issues a request carrying that supplied limit. -/
theorem C7_search_limit (q : String) :
    (KagiAPI.searchRequest { q := q, limit := none }).params
        = [("q", JSVal.str q), ("limit", JSVal.num 10)] ∧
    (KagiAPI.searchRequest { q := q, limit := some 5 }).params
        = [("q", JSVal.str q), ("limit", JSVal.num 5)] ∧
    (∀ n : Int, n ≠ 0 → (KagiAPI.searchRequest { q := q, limit := some n }).params
        = [("q", JSVal.str q), ("limit", JSVal.num n)]) := by
  refine ⟨rfl, rfl, fun n hn => ?_⟩
  simp [KagiAPI.searchRequest, jsOrNum, hn]

/-- Witness for C7 (amended) at the concrete limit 7. -/
theorem C7_search_limit_witness :
    (7 : Int) ≠ 0 ∧
    (KagiAPI.searchRequest { q := "x", limit := some 7 }).params
        = [("q", JSVal.str "x"), ("limit", JSVal.num 7)] :=
  ⟨by decide, (C7_search_limit "x").2.2 7 (by decide)⟩

/-- The search default substitutes every falsy (zero) limit, so the shaped
limit is never zero. -/
theorem jsOrNum_ten_ne_zero (l : Option Int) : jsOrNum l 10 ≠ 0 := by
  cases l with
  | none => simp [jsOrNum]
  | some n =>
    by_cases h : n = 0 <;> simp [jsOrNum, h]

/-- Claim C10: a direct client-level search call with limit 0 issues the same
request as one with limit absent, carrying limit 10; no search request ever
carries limit 0. -/
theorem C10_falsy_limit_default (q : String) :
    (KagiAPI.searchRequest { q := q, limit := some 0 }).params
        = (KagiAPI.searchRequest { q := q, limit := none }).params ∧
    (KagiAPI.searchRequest { q := q, limit := some 0 }).params
        = [("q", JSVal.str q), ("limit", JSVal.num 10)] ∧
    (∀ l : Option Int,
      ("limit", JSVal.num 0) ∉ (KagiAPI.searchRequest { q := q, limit := l }).params) := by
  refine ⟨rfl, rfl, fun l => ?_⟩
  have hne := jsOrNum_ten_ne_zero l
  simp [KagiAPI.searchRequest, Prod.ext_iff]
  intro h
  exact absurd h.symm hne

/-- Witness for C10 at a concrete query and the concrete limit 3. -/
theorem C10_falsy_limit_default_witness :
    (KagiAPI.searchRequest { q := "x", limit := some 0 }).params
        = (KagiAPI.searchRequest { q := "x", limit := none }).params ∧
    ("limit", JSVal.num 0) ∉ (KagiAPI.searchRequest { q := "x", limit := some 3 }).params :=
  ⟨(C10_falsy_limit_default "x").1, (C10_falsy_limit_default "x").2.2 (some 3)⟩

/-- Claim C8: testConnection performs a search with query "test" and limit 1
(the issued request carries q=test and limit=1), returns true when that call
resolves and false when it rejects, never propagating the underlying error. -/
theorem C8_testConnection (http : AxiosRequest → Except AxiosError HttpResponse) :
    (∀ r, http (KagiAPI.searchRequest { q := "test", limit := some 1 }) = .ok r →
      KagiAPI.testConnection http = true) ∧
    (∀ e, http (KagiAPI.searchRequest { q := "test", limit := some 1 }) = .error e →
      KagiAPI.testConnection http = false) ∧
    serializeParams (KagiAPI.searchRequest { q := "test", limit := some 1 }).params
        = [("q", "test"), ("limit", "1")] := by
  refine ⟨fun r h => ?_, fun e h => ?_, rfl⟩
  · simp [KagiAPI.testConnection, KagiAPI.search, KagiAPI.runRequest, h]
  · simp [KagiAPI.testConnection, KagiAPI.search, KagiAPI.runRequest, h]

/-- Witness for C8 with a transport that succeeds and one that fails. -/
theorem C8_testConnection_witness :
    KagiAPI.testConnection (fun _ => .ok { status := 200, data := JSVal.null }) = true ∧
    KagiAPI.testConnection
        (fun _ => .error { message := "Network Error", response := none }) = false :=
  ⟨(C8_testConnection (fun _ => .ok { status := 200, data := JSVal.null })).1
      { status := 200, data := JSVal.null } rfl,
   (C8_testConnection (fun _ => .error { message := "Network Error", response := none })).2.1
      { message := "Network Error", response := none } rfl⟩

/-- Claim C4: a summarize call with neither url nor text, and one with both,
fail for every transport (hence before any network activity) with a plain
input error, with two distinct messages, and a plain error is never an
instance of the normalized KagiError shape. -/
theorem C4_summarize_validation (p : SummarizeParams) :
    (strTruthy p.url = false → strTruthy p.text = false →
      ∀ http, KagiAPI.summarize http p
          = .error (.plain "Either url or text parameter is required")) ∧
    (strTruthy p.url = true → strTruthy p.text = true →
      ∀ http, KagiAPI.summarize http p
          = .error (.plain "Cannot provide both url and text parameters")) ∧
    ("Either url or text parameter is required"
        ≠ "Cannot provide both url and text parameters") ∧
    (∀ m e, Exn.plain m ≠ Exn.kagi e) := by
  refine ⟨fun h1 h2 http => ?_, fun h1 h2 http => ?_, by decide, fun m e h => Exn.noConfusion h⟩
  · simp [KagiAPI.summarize, h1, h2]
  · simp [KagiAPI.summarize, h1, h2]

/-- Witness for C4 at concrete parameter records for both failing cases. -/
theorem C4_summarize_validation_witness :
    strTruthy (none : Option String) = false ∧ strTruthy (some "u") = true ∧
    KagiAPI.summarize (fun _ => .ok { status := 200, data := JSVal.null })
        { url := none, text := none, engine := none, summary_type := none,
          target_language := none, cache := none }
        = .error (.plain "Either url or text parameter is required") ∧
    KagiAPI.summarize (fun _ => .ok { status := 200, data := JSVal.null })
        { url := some "u", text := some "t", engine := none, summary_type := none,
          target_language := none, cache := none }
        = .error (.plain "Cannot provide both url and text parameters") :=
  ⟨rfl, by decide,
   (C4_summarize_validation
      { url := none, text := none, engine := none, summary_type := none,
        target_language := none, cache := none }).1 rfl rfl _,
   (C4_summarize_validation
      { url := some "u", text := some "t", engine := none, summary_type := none,
        target_language := none, cache := none }).2.1 (by decide) (by decide) _⟩

/-- Counterexample to claim C1 as stated: for a transport failure whose backend
payload carries a present but empty message field, the normalized error takes
the raw transport failure message, not the present backend message field. -/
theorem C1_counterexample :
    (JSVal.obj [("message", JSVal.str "")]).getField "message" = JSVal.str "" ∧
    (KagiAPI.normalizeError
        { message := "Network Error",
          response := some { status := 500, data := JSVal.obj [("message", JSVal.str "")] } }).message
        = JSVal.str "Network Error" ∧
    JSVal.str "Network Error" ≠ JSVal.str "" := by
  refine ⟨rfl, rfl, fun h => ?_⟩
  exact absurd (JSVal.str.inj h) (by decide)

/-- Claim C1 (amended): every failure of the HTTP call path surfaces as a
KagiError, never as a raw transport error; its message is the backend's
reported message field when that field is present and truthy (in particular
non-empty), otherwise the raw transport failure message; its code is the HTTP
status when a response was received; its details are the backend's raw payload
when a response was received and undefined otherwise. -/
theorem C1_error_normalization (http : AxiosRequest → Except AxiosError HttpResponse)
    (req : AxiosRequest) (e : AxiosError) (h : http req = .error e) :
    KagiAPI.runRequest http req = .error (.kagi (KagiAPI.normalizeError e)) ∧
    (∀ r, e.response = some r →
      ((r.data.getField "message").truthy = true →
        (KagiAPI.normalizeError e).message = r.data.getField "message") ∧
      ((r.data.getField "message").truthy = false →
        (KagiAPI.normalizeError e).message = JSVal.str e.message) ∧
      (KagiAPI.normalizeError e).code = some r.status ∧
      (KagiAPI.normalizeError e).details = r.data) ∧
    (e.response = none →
      (KagiAPI.normalizeError e).message = JSVal.str e.message ∧
      (KagiAPI.normalizeError e).code = none ∧
      (KagiAPI.normalizeError e).details = JSVal.undefined) := by
  refine ⟨by simp [KagiAPI.runRequest, h], fun r hr => ?_, fun hr => ?_⟩
  · refine ⟨fun ht => ?_, fun ht => ?_, ?_, ?_⟩
    · simp [KagiAPI.normalizeError, hr, jsOr, ht]
    · simp [KagiAPI.normalizeError, hr, jsOr, ht]
    · simp [KagiAPI.normalizeError, hr]
    · simp [KagiAPI.normalizeError, hr]
  · exact ⟨by simp [KagiAPI.normalizeError, hr, jsOr, JSVal.truthy],
      by simp [KagiAPI.normalizeError, hr], by simp [KagiAPI.normalizeError, hr]⟩

/-- A sample outbound request used to exercise the normalization path. -/
def sampleRequest : AxiosRequest :=
  { method := "GET", path := "/search", params := [], body := JSVal.undefined }

/-- A sample transport failure carrying a backend response with a truthy
message field. -/
def sampleAxiosError : AxiosError :=
  { message := "Request failed with status code 429"
    response := some { status := 429, data := JSVal.obj [("message", JSVal.str "rate limited")] } }

/-- A transport that fails every request with `sampleAxiosError`. -/
def sampleFailingHttp : AxiosRequest → Except AxiosError HttpResponse :=
  fun _ => .error sampleAxiosError

/-- Witness for C1 (amended) at a concrete failing transport with a backend
response carrying a truthy message. -/
theorem C1_error_normalization_witness :
    sampleFailingHttp sampleRequest = .error sampleAxiosError ∧
    KagiAPI.runRequest sampleFailingHttp sampleRequest
        = .error (.kagi (KagiAPI.normalizeError sampleAxiosError)) ∧
    (KagiAPI.normalizeError sampleAxiosError).message = JSVal.str "rate limited" :=
  ⟨rfl, (C1_error_normalization sampleFailingHttp sampleRequest sampleAxiosError rfl).1, rfl⟩

/-- Claim C2: when the search rejects with a KagiError, the tool handler
returns (does not throw) a soft result with a single text block "Kagi API
error: " plus the message and the error flag set; any other rejection
propagates from the handler unmodified. -/
theorem C2_tool_error_handling (name : String) (args : JSVal)
    (search : SearchParams → Except Exn JSVal) (p : SearchParams)
    (hp : parseToolCall name args = .ok p) :
    (∀ k, search p = .error (.kagi k) →
      callToolHandler name args search
        = .ok (.errorContent
            [{ type := "text", text := "Kagi API error: " ++ k.message.display }] true)) ∧
    (∀ e, search p = .error e → (∀ k, e ≠ .kagi k) →
      callToolHandler name args search = .error e) := by
  constructor
  · intro k hk
    simp [callToolHandler, hp, runToolSearch, hk]
  · intro e he hne
    cases e with
    | kagi k => exact absurd rfl (hne k)
    | plain m => simp [callToolHandler, hp, runToolSearch, he]
    | mcp c m => simp [callToolHandler, hp, runToolSearch, he]
    | other v => simp [callToolHandler, hp, runToolSearch, he]

/-- Witness for C2 at a concrete invocation whose search rejects with a
concrete KagiError. -/
theorem C2_tool_error_handling_witness :
    parseToolCall "kagi_search" (JSVal.obj [("query", JSVal.str "x")])
        = .ok { q := "x", limit := none } ∧
    callToolHandler "kagi_search" (JSVal.obj [("query", JSVal.str "x")])
        (fun _ => .error (.kagi { message := JSVal.str "boom", code := some 500,
                                  details := JSVal.undefined }))
        = .ok (.errorContent
            [{ type := "text", text := "Kagi API error: " ++ (JSVal.str "boom").display }] true) :=
  ⟨rfl,
   (C2_tool_error_handling "kagi_search" (JSVal.obj [("query", JSVal.str "x")])
      (fun _ => .error (.kagi { message := JSVal.str "boom", code := some 500,
                                details := JSVal.undefined }))
      { q := "x", limit := none } rfl).1
    { message := JSVal.str "boom", code := some 500, details := JSVal.undefined } rfl⟩

/-- Claim C5: the handler fails with an invalid-params fault when no argument
object is supplied or the argument is not an object, and when the query field
is not a string; an invocation of any name other than "kagi_search" fails with
a method-not-found fault. -/
theorem C5_argument_validation (search : SearchParams → Except Exn JSVal) :
    (∀ args : JSVal, (args.truthy = false ∨ args.typeof ≠ "object") →
      callToolHandler "kagi_search" args search
          = .error (.mcp .invalidParams "Invalid arguments for kagi_search")) ∧
    (∀ fields, ((JSVal.obj fields).getField "query").typeof ≠ "string" →
      callToolHandler "kagi_search" (JSVal.obj fields) search
          = .error (.mcp .invalidParams "Query must be a string")) ∧
    (∀ (name : String) (args : JSVal), name ≠ "kagi_search" →
      callToolHandler name args search = .error (.mcp .methodNotFound "Unknown tool")) := by
  refine ⟨?_, ?_, ?_⟩
  · intro args h
    have hcond : (!args.truthy || args.typeof != "object") = true := by
      rcases h with h | h
      · simp [h]
      · simp [bne_iff_ne, h]
    simp [callToolHandler, parseToolCall, hcond]
  · intro fields hq
    cases hqv : (JSVal.obj fields).getField "query" with
    | str s => rw [hqv] at hq; exact absurd rfl hq
    | undefined => simp [callToolHandler, parseToolCall, JSVal.truthy, JSVal.typeof, hqv]
    | null => simp [callToolHandler, parseToolCall, JSVal.truthy, JSVal.typeof, hqv]
    | bool b => simp [callToolHandler, parseToolCall, JSVal.truthy, JSVal.typeof, hqv]
    | num n => simp [callToolHandler, parseToolCall, JSVal.truthy, JSVal.typeof, hqv]
    | obj o => simp [callToolHandler, parseToolCall, JSVal.truthy, JSVal.typeof, hqv]
  · intro name args h
    simp [callToolHandler, parseToolCall, h]

/-- Witness for C5 at concrete invalid invocations. -/
theorem C5_argument_validation_witness :
    JSVal.undefined.truthy = false ∧
    ((JSVal.obj [("query", JSVal.num 3)]).getField "query").typeof ≠ "string" ∧
    ("other_tool" : String) ≠ "kagi_search" ∧
    callToolHandler "kagi_search" JSVal.undefined (fun _ => .ok JSVal.null)
        = .error (.mcp .invalidParams "Invalid arguments for kagi_search") ∧
    callToolHandler "kagi_search" (JSVal.obj [("query", JSVal.num 3)]) (fun _ => .ok JSVal.null)
        = .error (.mcp .invalidParams "Query must be a string") ∧
    callToolHandler "other_tool" (JSVal.obj []) (fun _ => .ok JSVal.null)
        = .error (.mcp .methodNotFound "Unknown tool") :=
  ⟨rfl, by simp [JSVal.getField, lookupField, JSVal.typeof], by decide,
   (C5_argument_validation (fun _ => .ok JSVal.null)).1 JSVal.undefined (Or.inl rfl),
   (C5_argument_validation (fun _ => .ok JSVal.null)).2.1 [("query", JSVal.num 3)]
      (by simp [JSVal.getField, lookupField, JSVal.typeof]),
   (C5_argument_validation (fun _ => .ok JSVal.null)).2.2 "other_tool" (JSVal.obj [])
      (by decide)⟩

/-- Claim C3: when the arguments carry a limit field (a value other than
undefined), the handler rejects with an invalid-params fault unless the limit
is a number in [1, 100]; a limit in that range is passed through unchanged as
the limit handed to the search operation. -/
theorem C3_limit_validation (fields : List (String × JSVal)) :
    ((JSVal.obj fields).getField "limit" ≠ JSVal.undefined →
     (∀ n : Int, (JSVal.obj fields).getField "limit" = JSVal.num n → n < 1 ∨ 100 < n) →
      ∃ msg, parseToolCall "kagi_search" (JSVal.obj fields)
          = .error (.mcp .invalidParams msg)) ∧
    (∀ s n, (JSVal.obj fields).getField "query" = JSVal.str s →
      (JSVal.obj fields).getField "limit" = JSVal.num n → 1 ≤ n → n ≤ 100 →
      parseToolCall "kagi_search" (JSVal.obj fields) = .ok { q := s, limit := some n } ∧
      ∀ search, callToolHandler "kagi_search" (JSVal.obj fields) search
          = runToolSearch search { q := s, limit := some n }) := by
  constructor
  · intro hne hbad
    cases hqv : (JSVal.obj fields).getField "query" with
    | str s =>
      cases hlv : (JSVal.obj fields).getField "limit" with
      | undefined => exact absurd hlv hne
      | num n =>
        refine ⟨"Limit must be a number between 1 and 100", ?_⟩
        have hcond : (decide (n < 1) || decide (n > 100)) = true := by
          rcases hbad n hlv with h | h <;> simp [h]
        simp [parseToolCall, JSVal.truthy, JSVal.typeof, hqv, hlv, hcond]
      | null =>
        exact ⟨"Limit must be a number between 1 and 100",
          by simp [parseToolCall, JSVal.truthy, JSVal.typeof, hqv, hlv]⟩
      | bool b =>
        exact ⟨"Limit must be a number between 1 and 100",
          by simp [parseToolCall, JSVal.truthy, JSVal.typeof, hqv, hlv]⟩
      | str t =>
        exact ⟨"Limit must be a number between 1 and 100",
          by simp [parseToolCall, JSVal.truthy, JSVal.typeof, hqv, hlv]⟩
      | obj o =>
        exact ⟨"Limit must be a number between 1 and 100",
          by simp [parseToolCall, JSVal.truthy, JSVal.typeof, hqv, hlv]⟩
    | undefined =>
      exact ⟨"Query must be a string", by simp [parseToolCall, JSVal.truthy, JSVal.typeof, hqv]⟩
    | null =>
      exact ⟨"Query must be a string", by simp [parseToolCall, JSVal.truthy, JSVal.typeof, hqv]⟩
    | bool b =>
      exact ⟨"Query must be a string", by simp [parseToolCall, JSVal.truthy, JSVal.typeof, hqv]⟩
    | num m =>
      exact ⟨"Query must be a string", by simp [parseToolCall, JSVal.truthy, JSVal.typeof, hqv]⟩
    | obj o =>
      exact ⟨"Query must be a string", by simp [parseToolCall, JSVal.truthy, JSVal.typeof, hqv]⟩
  · intro s n hqv hlv h1 h100
    have hcond : (decide (n < 1) || decide (n > 100)) = false := by
      simp only [Bool.or_eq_false_iff, decide_eq_false_iff_not]
      omega
    have hparse : parseToolCall "kagi_search" (JSVal.obj fields)
        = .ok { q := s, limit := some n } := by
      simp [parseToolCall, JSVal.truthy, JSVal.typeof, hqv, hlv, hcond]
    exact ⟨hparse, fun search => by simp [callToolHandler, hparse]⟩

/-- Witness for C3: limit 101 is rejected and limit 5 is passed through. -/
theorem C3_limit_validation_witness :
    (∃ msg, parseToolCall "kagi_search"
        (JSVal.obj [("query", JSVal.str "x"), ("limit", JSVal.num 101)])
        = .error (.mcp .invalidParams msg)) ∧
    parseToolCall "kagi_search"
        (JSVal.obj [("query", JSVal.str "x"), ("limit", JSVal.num 5)])
        = .ok { q := "x", limit := some 5 } := by
  constructor
  · refine (C3_limit_validation [("query", JSVal.str "x"), ("limit", JSVal.num 101)]).1
      (by simp [JSVal.getField, lookupField]) ?_
    intro n hn
    simp [JSVal.getField, lookupField] at hn
    omega
  · exact ((C3_limit_validation [("query", JSVal.str "x"), ("limit", JSVal.num 5)]).2
      "x" 5 rfl rfl (by decide) (by decide)).1

/-- Claim C9: for summarize and fastgpt, a present cache flag is transmitted in
its textual form ("true" or "false"), and an absent cache flag is not
transmitted at all. -/
theorem C9_cache_serialization (sp : SummarizeParams) (fp : FastGPTParams) :
    (∀ b, sp.cache = some b →
      ("cache", boolToString b) ∈ serializeParams (KagiAPI.summarizeRequest sp).params) ∧
    (sp.cache = none →
      ∀ v, ("cache", v) ∉ serializeParams (KagiAPI.summarizeRequest sp).params) ∧
    (∀ b, fp.cache = some b →
      ("cache", JSVal.str (boolToString b)) ∈ (KagiAPI.fastgptRequest fp).transmittedBody) ∧
    (fp.cache = none →
      ∀ v, ("cache", v) ∉ (KagiAPI.fastgptRequest fp).transmittedBody) := by
  obtain ⟨u, t, en, st, tl, c⟩ := sp
  obtain ⟨fq, fc⟩ := fp
  refine ⟨?_, ?_, ?_, ?_⟩
  · rintro b rfl
    cases u <;> cases t <;> cases en <;> cases st <;> cases tl <;>
      simp [KagiAPI.summarizeRequest, serializeParams, omittedParam, optStrVal, JSVal.display]
  · rintro rfl v
    cases u <;> cases t <;> cases en <;> cases st <;> cases tl <;>
      simp [KagiAPI.summarizeRequest, serializeParams, omittedParam, optStrVal, JSVal.display]
  · rintro b rfl
    simp [KagiAPI.fastgptRequest, AxiosRequest.transmittedBody, jsonBodyFields, omittedJsonField]
  · rintro rfl v
    simp [KagiAPI.fastgptRequest, AxiosRequest.transmittedBody, jsonBodyFields, omittedJsonField]

/-- Witness for C9 at concrete summarize and fastgpt parameter records. -/
theorem C9_cache_serialization_witness :
    ("cache", boolToString true) ∈ serializeParams (KagiAPI.summarizeRequest
        { url := some "u", text := none, engine := none, summary_type := none,
          target_language := none, cache := some true }).params ∧
    (("cache", JSVal.str "t") ∉ (KagiAPI.fastgptRequest { query := "q", cache := none }).transmittedBody) :=
  ⟨(C9_cache_serialization
      { url := some "u", text := none, engine := none, summary_type := none,
        target_language := none, cache := some true }
      { query := "q", cache := none }).1 true rfl,
   (C9_cache_serialization
      { url := some "u", text := none, engine := none, summary_type := none,
        target_language := none, cache := some true }
      { query := "q", cache := none }).2.2.2 rfl (JSVal.str "t")⟩

end Kagi
